import Mathlib

/-!
Shallow embedding of the condition-variable core of this repository:
`rust/kernel/sync/condvar.rs` (the `CondVar` type and its operations) and the
demonstration driver `samples/rust/complete.rs` (`GLOBAL_CV`, module init,
`RustFile::read` / `RustFile::write`).

The kernel primitives that `condvar.rs` invokes through `bindings`
(`init_wait`, `prepare_to_wait_exclusive`, `schedule`, `finish_wait`,
`__wake_up`) and the lock capability (`Lock::unlock` / `Lock::lock_noguard`)
live elsewhere in the kernel tree and are not under `src/`; they are modelled
from the spec's external-interface contract (spec sections 4.1, 5 and 6),
as noted on each definition. `pr_info!` logging calls are omitted: the spec
places logging out of scope.
-/

namespace CondvarModel

/-- A waiter entry (`struct wait_queue_entry` as used by `CondVar::wait`):
thread identity plus the exclusive-wakeup marking (`WQ_FLAG_EXCLUSIVE`). -/
structure Waiter where
  tid : Nat
  exclusive : Bool
deriving DecidableEq

/-- The condition variable's state: the `initialized` flag (whether
`__init_waitqueue_head` has run, i.e. whether `CondVar::init` was called) and
the FIFO list of registered waiter entries (head = oldest insertion). -/
structure CondVarState where
  initialized : Bool
  entries : List Waiter
deriving DecidableEq

/-- The calling thread, as consumed by `wait`: identity and the
pending-signal status that `Task::current().signal_pending()` reports. -/
structure Task where
  tid : Nat
  signalPending : Bool
deriving DecidableEq

/-- The lock guard (`Guard<'_, L, I>`): the identity of the lock it refers to
and the "currently held" lock context that `wait` cycles out (at `unlock`)
and back in (at `lock_noguard`). -/
structure Guard (Ctx : Type) where
  lock : Nat
  context : Ctx

/-- The reason the sleeping thread resumed from `schedule`; `wait`'s body
does not branch on it (spec section 4.1 step 5: "for any reason"). -/
inductive WakeReason
  | explicitWake
  | forcedWake
  | signalDelivery
deriving DecidableEq

/-- One kernel-facing operation performed by `CondVar::wait`, in the order its
body issues them (condvar.rs lines 64-101). `prepare_to_wait_exclusive` is
split into its two effects, insertion and setting the task state, which the
kernel performs in that order inside the one call. -/
inductive Event
  | initWait
  | insertEntry
  | setStateInterruptible
  | unlockEv
  | scheduleEv
  | lockNoguardEv
  | finishWaitEv
  | signalQuery
deriving DecidableEq

/-- Modelled from the spec: which of `wait`'s operations may block the calling
thread. Spec section 6 gives the external contracts: `unlock` "releases, must
not block"; the scheduler yield blocks until woken; `lock_blocking`
(`lock_noguard` in the code) "reacquires, may block the calling thread". The
remaining operations (entry construction, queue insert/remove, state flag,
signal query) are non-blocking bookkeeping. -/
def Event.mayBlock : Event → Bool
  | Event.scheduleEv => true
  | Event.lockNoguardEv => true
  | _ => false

/-- The five core wait-morphing operations named by the spec's
register → unlock → sleep → lock → deregister protocol (register covers both
effects of `prepare_to_wait_exclusive`). -/
def Event.coreOp : Event → Bool
  | Event.insertEntry => true
  | Event.setStateInterruptible => true
  | Event.unlockEv => true
  | Event.scheduleEv => true
  | Event.lockNoguardEv => true
  | Event.finishWaitEv => true
  | _ => false

/-- Everything `CondVar::wait` produces: the trace of kernel-facing
operations it performed, the guard it hands back, the wait-queue state it
leaves behind, and its boolean return value. -/
structure WaitResult (Ctx : Type) where
  trace : List Event
  guard : Guard Ctx
  queue : CondVarState
  signaled : Bool

/-- Transcription of `CondVar::wait` (condvar.rs lines 64-101). The
parameters beyond the Rust ones close over the environment: `newCtx` is the
context `lock_noguard` returns on reacquisition, `reason` is why the thread
resumed from `schedule`, and `removedDuringSleep` says whether a concurrent
waker's autoremove wake function already unlinked the entry while the thread
slept (so that `finish_wait`'s remove-if-still-linked is exercised both ways).
The kernel primitives are modelled from the spec's scheduler contract
(section 6): `prepare_to_wait_exclusive` marks the entry `WQ_FLAG_EXCLUSIVE`,
appends it at the queue tail and sets the task interruptible; `finish_wait`
removes the entry if it is still linked (idempotent, spec section 4.1
step 6). -/
def CondVar.wait {Ctx : Type} (q : CondVarState) (g : Guard Ctx) (t : Task)
    (newCtx : Ctx) (reason : WakeReason) (removedDuringSleep : Bool) :
    WaitResult Ctx :=
  -- line 65: `let lock = guard.lock;`
  let lockId := g.lock
  -- lines 67, 71: construct the entry on the caller's frame; `init_wait`
  -- leaves it unlinked with flags 0 and the autoremove wake function.
  let entry : Waiter := { tid := t.tid, exclusive := false }
  let tr0 : List Event := [Event.initWait]
  -- lines 76-82: `prepare_to_wait_exclusive(wait_list, wait,
  -- TASK_INTERRUPTIBLE)`: set WQ_FLAG_EXCLUSIVE, add at tail, set the
  -- calling thread's state to interruptible-sleep.
  let entry : Waiter := { entry with exclusive := true }
  let q1 : CondVarState := { q with entries := q.entries ++ [entry] }
  let tr1 := tr0 ++ [Event.insertEntry, Event.setStateInterruptible]
  -- line 86: `lock.unlock(&mut guard.context)` — cycles the context out.
  let tr2 := tr1 ++ [Event.unlockEv]
  -- line 90: `schedule()` — the suspension. While asleep, a waker's
  -- autoremove wake function may already have unlinked the entry.
  let q2 : CondVarState :=
    if removedDuringSleep then
      { q1 with entries := q1.entries.eraseP (fun w => w.tid == t.tid) }
    else q1
  let tr3 := tr2 ++ [Event.scheduleEv]
  -- line 93: `guard.context = lock.lock_noguard()` — blocking reacquisition,
  -- fresh context restored into the guard; the lock identity is untouched.
  let g1 : Guard Ctx := { lock := lockId, context := newCtx }
  let tr4 := tr3 ++ [Event.lockNoguardEv]
  -- line 97: `finish_wait(wait_list, wait)` — set the task running again and
  -- remove the entry if it is still linked.
  let q3 : CondVarState :=
    { q2 with entries := q2.entries.eraseP (fun w => w.tid == t.tid) }
  let tr5 := tr4 ++ [Event.finishWaitEv]
  -- line 100: `Task::current().signal_pending()` is the return value.
  { trace := tr5 ++ [Event.signalQuery]
    guard := g1
    queue := q3
    signaled := t.signalPending }

/-- Modelled from the spec: the kernel's `__wake_up` scan over the wait list,
which is not under `src/`. Per the spec's notify contract (section 4.1:
`notify_one`, count 1, "wakes exactly one waiting thread, chosen by FIFO
order among entries marked exclusive"; `notify_all`, count 0, "wakes every
currently waiting thread"), the scan walks the list from the head (oldest
entry), wakes each entry — the autoremove wake function used by `wait`'s
entries removes a woken entry from the list — and stops once it has woken
`nr` exclusive entries; a non-positive `nr` never reaches zero by
decrementing, so it wakes everything. Returns (remaining entries, woken
entries in wake order). Waiters are assumed asleep, so each wake succeeds. -/
def wakeUpScan : List Waiter → Int → List Waiter × List Waiter
  | [], _ => ([], [])
  | w :: ws, nr =>
    if w.exclusive = true ∧ nr = 1 then
      (ws, [w])
    else
      let res := wakeUpScan ws (if w.exclusive then nr - 1 else nr)
      (res.1, w :: res.2)

/-- `bindings::POLLHUP` (kernel poll ABI). -/
def POLLHUP : Nat := 0x10

/-- `POLLFREE`, defined in condvar.rs line 21. -/
def POLLFREE : Nat := 0x4000

/-- Transcription of the private `CondVar::notify(count, flags)` (condvar.rs
lines 104-114): calls `__wake_up(wait_list, TASK_NORMAL, count, flags)`.
The flags only reach each entry's wake function; the autoremove wake function
used by `wait`-registered entries ignores them, so the modelled scan does not
consult them. Returns the new state and the woken entries. -/
def CondVar.notify (s : CondVarState) (count : Int) (flags : Nat) :
    CondVarState × List Waiter :=
  let _ := flags
  let res := wakeUpScan s.entries count
  ({ s with entries := res.1 }, res.2)

/-- Transcription of `CondVar::notify_one` (condvar.rs lines 119-121):
`self.notify(1, 0)`. -/
def CondVar.notify_one (s : CondVarState) : CondVarState × List Waiter :=
  CondVar.notify s 1 0

/-- Transcription of `CondVar::notify_all` (condvar.rs lines 126-128):
`self.notify(0, 0)`. -/
def CondVar.notify_all (s : CondVarState) : CondVarState × List Waiter :=
  CondVar.notify s 0 0

/-- Transcription of `CondVar::free_waiters` (condvar.rs lines 133-135):
`self.notify(1, POLLHUP | POLLFREE)`. -/
def CondVar.free_waiters (s : CondVarState) : CondVarState × List Waiter :=
  CondVar.notify s 1 (POLLHUP ||| POLLFREE)

/-- Transcription of `CondVar::new` (condvar.rs lines 51-56): the wait list
is left uninitialised (`Opaque::uninit`); no `__init_waitqueue_head` has run.
The safety doc requires `CondVar::init` before any use. -/
def CondVar.new : CondVarState :=
  { initialized := false, entries := [] }

/-- Transcription of `NeedsLockClass::init` for `CondVar` (condvar.rs lines
139-148): `__init_waitqueue_head` binds the structure and produces an empty,
initialised wait list. -/
def CondVar.init (_s : CondVarState) : CondVarState :=
  { initialized := true, entries := [] }

/-- Specification-side splitter used to characterise a count-1 wake: the
leading non-exclusive entries together with the first exclusive entry (all of
them if none is exclusive), and the entries after that first exclusive one. -/
def splitAtFirstExclusive : List Waiter → List Waiter × List Waiter
  | [] => ([], [])
  | w :: ws =>
    if w.exclusive then
      ([w], ws)
    else
      let res := splitAtFirstExclusive ws
      (w :: res.1, res.2)

/-! ## The demonstration driver (`samples/rust/complete.rs`) -/

/-- `GLOBALMEM_SIZE` (complete.rs line 10). -/
def GLOBALMEM_SIZE : Nat := 0x64

/-- The static `GLOBAL_CV` as the program constructs it (complete.rs lines
21-23): `unsafe { CondVar::new() }`. -/
def GLOBAL_CV : CondVarState := CondVar.new

/-- The observable steps of `RustCompletion::init` (complete.rs lines 32-55).
`condvarInit` is in the alphabet so that its absence from the performed
step list is meaningful; the `condvar_init!` call in the source is inside a
commented-out block. -/
inductive InitStep
  | printBanner
  | chrdevNewPinned
  | chrdevRegister
  | condvarInit
deriving DecidableEq

/-- The steps `RustCompletion::init` actually performs, in order:
`pr_info!`, `chrdev::Registration::new_pinned`, `register::<RustFile>`.
No step touches `GLOBAL_CV`. -/
def RustCompletion.initSteps : List InitStep :=
  [InitStep.printBanner, InitStep.chrdevNewPinned, InitStep.chrdevRegister]

/-- Effect of one module-init step on the global condition variable: only a
`condvar_init!` call would initialise it. -/
def stepCV (s : CondVarState) : InitStep → CondVarState
  | InitStep.condvarInit => CondVar.init s
  | _ => s

/-- The state of `GLOBAL_CV` after module load, when the read/write file
operations become reachable. -/
def cvAfterModuleInit : CondVarState :=
  RustCompletion.initSteps.foldl stepCV GLOBAL_CV

/-- Everything `RustFile::read` produces: the `Result<usize>` value, the
buffer contents at the moment `wait` is called (after `guard[0] = '1'`), the
trace of the inner `wait` call, the signal boolean that `let _ =` discarded,
and the condition-variable state left behind. -/
structure ReadResult where
  result : Except Unit Nat
  bufAtWait : Fin GLOBALMEM_SIZE → Nat
  waitTrace : List Event
  discardedSignal : Bool
  cv : CondVarState

/-- Index 0 of the `GLOBALMEM_BUF` payload, the byte `read` writes before
waiting. -/
def firstByte : Fin GLOBALMEM_SIZE := ⟨0, by decide⟩

/-- Transcription of `RustFile::read` (complete.rs lines 106-119). The
caller-side buffer is the `GLOBALMEM_BUF` payload the mutex guards; `t`,
`reason` and `removedDuringSleep` close over the environment as in
`CondVar.wait`. -/
def RustFile.read (cv : CondVarState) (buf : Fin GLOBALMEM_SIZE → Nat)
    (t : Task) (reason : WakeReason) (removedDuringSleep : Bool) :
    ReadResult :=
  -- line 110: `let mut guard = _this.mutex.lock();`
  let g : Guard Unit := { lock := 0, context := () }
  -- line 111: `guard[0] = '1' as u8;` — ASCII '1' is 49.
  let buf1 := Function.update buf firstByte 49
  -- line 113: `let _ = _this.condvar.wait(&mut guard);`
  let wr := CondVar.wait cv g t () reason removedDuringSleep
  -- line 118: `Ok(0)`
  { result := Except.ok 0
    bufAtWait := buf1
    waitTrace := wr.trace
    discardedSignal := wr.signaled
    cv := wr.queue }

/-- Transcription of `RustFile::write` (complete.rs lines 88-104): calls
`notify_all` on the condition variable and returns `Ok(_offset as usize)`.
Returns the result and the condvar state/woken list. -/
def RustFile.write (cv : CondVarState) (offset : Nat) :
    Except Unit Nat × CondVarState × List Waiter :=
  let res := CondVar.notify_all cv
  (Except.ok offset, res.1, res.2)

/-! ## Helper lemmas about the wake scan -/

/-- A count-1 wake scan wakes the leading non-exclusive entries and the first
exclusive entry, then stops; the entries after that first exclusive entry
remain. -/
theorem wakeUpScan_one (l : List Waiter) :
    wakeUpScan l 1 =
      ((splitAtFirstExclusive l).2, (splitAtFirstExclusive l).1) := by
  induction l with
  | nil => rfl
  | cons w ws ih =>
    by_cases hw : w.exclusive = true
    · simp [wakeUpScan, splitAtFirstExclusive, hw]
    · simp [wakeUpScan, splitAtFirstExclusive, hw, ih]

/-- A wake scan with a non-positive exclusive budget never stops: every entry
is woken and removed. This is the `count = 0` case used by `notify_all`. -/
theorem wakeUpScan_nonpos (l : List Waiter) (nr : Int) (h : nr ≤ 0) :
    wakeUpScan l nr = ([], l) := by
  induction l generalizing nr with
  | nil => rfl
  | cons w ws ih =>
    have hnr : ¬nr = 1 := by omega
    by_cases hw : w.exclusive = true
    · simp [wakeUpScan, hnr, hw, ih (nr - 1) (by omega)]
    · simp [wakeUpScan, hnr, hw, ih nr h]

/-! ## Claim theorems -/

/-- C1: in every call to `CondVar::wait`, restricted to the wait-morphing
operations, the sequence performed is exactly: insert the waiter entry and
set the thread interruptible (register), release the caller's lock (unlock),
suspend (sleep), reacquire the lock (lock), and remove the waiter entry
(deregister) — registration strictly before unlock, unlock strictly before
the suspension, reacquisition after resume, removal after reacquisition. -/
theorem wait_sequence_register_unlock_sleep_lock_deregister {Ctx : Type}
    (q : CondVarState) (g : Guard Ctx) (t : Task) (c : Ctx)
    (reason : WakeReason) (rm : Bool) :
    (CondVar.wait q g t c reason rm).trace.filter Event.coreOp =
      [Event.insertEntry, Event.setStateInterruptible, Event.unlockEv,
        Event.scheduleEv, Event.lockNoguardEv, Event.finishWaitEv] := rfl

/-- C2 counterexample: with two `wait`-registered (exclusive) waiters on the
queue, `free_waiters` — which passes count 1 to the wake scan, exactly like
`notify_one` — wakes only the first and leaves the second registered, so it
does not remove every waiter and the queue is not empty afterwards. -/
theorem free_waiters_leaves_second_exclusive_waiter :
    (CondVar.free_waiters
        { initialized := true,
          entries := [{ tid := 1, exclusive := true },
            { tid := 2, exclusive := true }] }).1.entries =
      [{ tid := 2, exclusive := true }] ∧
    ¬(CondVar.free_waiters
        { initialized := true,
          entries := [{ tid := 1, exclusive := true },
            { tid := 2, exclusive := true }] }).1.entries = [] := by
  decide

/-- C2 amended: `free_waiters` wakes and removes, in FIFO order, every
waiter up to and including the first exclusive entry — that is, all leading
non-exclusive (e.g. `epoll`-added) waiters and at most one exclusive waiter;
exclusive waiters after the first remain registered. Only when the queue
holds no further exclusive entry past that point does it drain completely. -/
theorem free_waiters_wakes_through_first_exclusive (s : CondVarState) :
    CondVar.free_waiters s =
      ({ s with entries := (splitAtFirstExclusive s.entries).2 },
        (splitAtFirstExclusive s.entries).1) := by
  unfold CondVar.free_waiters CondVar.notify
  rw [wakeUpScan_one]

/-- C3, evaluated at the failing input (module loaded, then the first `read`
on the device): the driver's `GLOBAL_CV` still has `initialized = false`
after `RustCompletion::init` completes — no `condvar_init!` is ever executed
— and the `read` handler nevertheless reaches the suspension inside
`CondVar::wait` on that never-initialised condition variable, violating the
documented safety contract of `CondVar::new`. -/
theorem driver_read_waits_on_never_initialised_condvar :
    cvAfterModuleInit.initialized = false ∧
    Event.scheduleEv ∈
      (RustFile.read cvAfterModuleInit (fun _ => 0)
        { tid := 1, signalPending := false } WakeReason.explicitWake
        false).waitTrace := by
  decide

/-- C4 counterexample: the trace of a `wait` call contains a second
operation that may block the calling thread — the lock reacquisition
`lock_noguard`, whose contract says it may block — so the suspension
(`schedule`) is not the only blocking operation in the call. -/
theorem wait_reacquisition_also_blocks :
    Event.lockNoguardEv ∈
      ((CondVar.wait { initialized := true, entries := [] }
          { lock := 0, context := () } { tid := 1, signalPending := false }
          () WakeReason.explicitWake false).trace.filter Event.mayBlock) ∧
    Event.mayBlock Event.lockNoguardEv = true ∧
    Event.lockNoguardEv ≠ Event.scheduleEv := by
  decide

/-- C4 amended: in every call to `CondVar::wait` the suspension point
(`schedule`) is executed exactly once, no operation in the call is repeated
(the body is straight-line: no loop and no re-check of any caller
predicate), and the only operations that may block are the suspension and
the subsequent blocking lock reacquisition, in that order. -/
theorem wait_single_suspension_straight_line {Ctx : Type}
    (q : CondVarState) (g : Guard Ctx) (t : Task) (c : Ctx)
    (reason : WakeReason) (rm : Bool) :
    (CondVar.wait q g t c reason rm).trace.count Event.scheduleEv = 1 ∧
    (∀ e : Event, (CondVar.wait q g t c reason rm).trace.count e ≤ 1) ∧
    (CondVar.wait q g t c reason rm).trace.filter Event.mayBlock =
      [Event.scheduleEv, Event.lockNoguardEv] := by
  refine ⟨rfl, ?_, rfl⟩
  intro e
  rw [show (CondVar.wait q g t c reason rm).trace =
    [Event.initWait, Event.insertEntry, Event.setStateInterruptible,
      Event.unlockEv, Event.scheduleEv, Event.lockNoguardEv,
      Event.finishWaitEv, Event.signalQuery] from rfl]
  cases e <;> decide

/-- C5: for every resume reason (explicit wake, forced wake, pending
signal), `CondVar::wait` completes the whole sequence — through lock
reacquisition and waiter removal — and returns normally; its boolean return
value is exactly the calling thread's pending-signal status at that
moment. -/
theorem wait_completes_and_returns_signal_pending {Ctx : Type}
    (q : CondVarState) (g : Guard Ctx) (t : Task) (c : Ctx)
    (reason : WakeReason) (rm : Bool) :
    (CondVar.wait q g t c reason rm).trace =
      [Event.initWait, Event.insertEntry, Event.setStateInterruptible,
        Event.unlockEv, Event.scheduleEv, Event.lockNoguardEv,
        Event.finishWaitEv, Event.signalQuery] ∧
    (CondVar.wait q g t c reason rm).signaled = t.signalPending :=
  ⟨rfl, rfl⟩

/-- C6: on any queue whose registered entries are all exclusive — which is
every entry `CondVar::wait` registers, since `prepare_to_wait_exclusive`
marks each entry exclusive — a single `notify_one` call wakes exactly the
first-inserted (FIFO head) waiter and leaves all the others registered. -/
theorem notify_one_wakes_first_exclusive (s : CondVarState)
    (h1 : s.entries ≠ [])
    (h2 : ∀ w ∈ s.entries, w.exclusive = true) :
    CondVar.notify_one s =
      ({ s with entries := s.entries.drop 1 }, s.entries.take 1) := by
  cases hs : s.entries with
  | nil => exact absurd hs h1
  | cons w ws =>
    have hw : w.exclusive = true := h2 w (hs ▸ List.mem_cons_self w ws)
    unfold CondVar.notify_one CondVar.notify
    simp [hs, wakeUpScan, hw]

/-- Witness for C6 at a concrete two-waiter queue. -/
theorem notify_one_wakes_first_exclusive_witness :
    ({ initialized := true,
        entries := [{ tid := 1, exclusive := true },
          { tid := 2, exclusive := true }] } : CondVarState).entries ≠ [] ∧
    CondVar.notify_one
        { initialized := true,
          entries := [{ tid := 1, exclusive := true },
            { tid := 2, exclusive := true }] } =
      ({ initialized := true, entries := [{ tid := 2, exclusive := true }] },
        [{ tid := 1, exclusive := true }]) :=
  ⟨by decide, by
    have h := notify_one_wakes_first_exclusive
      { initialized := true,
        entries := [{ tid := 1, exclusive := true },
          { tid := 2, exclusive := true }] }
      (by decide) (by decide)
    simpa using h⟩

/-- C7: on every queue state, a single `notify_all` call wakes every
currently registered waiter (in FIFO order) and leaves the queue empty. -/
theorem notify_all_wakes_every_waiter (s : CondVarState) :
    CondVar.notify_all s = ({ s with entries := [] }, s.entries) := by
  unfold CondVar.notify_all CondVar.notify
  rw [wakeUpScan_nonpos s.entries 0 le_rfl]

/-- C8: notifications are not sticky. A `notify` call of any count and flags
(covering `notify_one` and `notify_all`) on a queue with zero registered
waiters returns the state unchanged and wakes nobody — the state carries no
pending-notification record at all — and a thread that calls `wait`
afterwards still registers itself and reaches the suspension point. -/
theorem notify_on_empty_queue_not_sticky {Ctx : Type} (b : Bool)
    (count : Int) (flags : Nat) (g : Guard Ctx) (t : Task) (c : Ctx)
    (reason : WakeReason) (rm : Bool) :
    CondVar.notify { initialized := b, entries := [] } count flags =
      ({ initialized := b, entries := [] }, []) ∧
    Event.scheduleEv ∈
      (CondVar.wait { initialized := b, entries := [] } g t c reason
        rm).trace := by
  exact ⟨rfl, by simp [CondVar.wait]⟩

/-- C9: `CondVar::wait` leaves the guard's lock identity unchanged and only
cycles its held context (the reacquired context replaces the old one), and
the lock capability's unlock and blocking-lock operations each appear
exactly once in the call's trace. -/
theorem wait_guard_frame {Ctx : Type} (q : CondVarState) (g : Guard Ctx)
    (t : Task) (c : Ctx) (reason : WakeReason) (rm : Bool) :
    (CondVar.wait q g t c reason rm).guard.lock = g.lock ∧
    (CondVar.wait q g t c reason rm).guard.context = c ∧
    (CondVar.wait q g t c reason rm).trace.count Event.unlockEv = 1 ∧
    (CondVar.wait q g t c reason rm).trace.count Event.lockNoguardEv = 1 :=
  ⟨rfl, rfl, rfl, rfl⟩

/-- C10: for every invocation of the driver's `read` handler — whatever the
thread's pending-signal status and resume reason — the boolean returned by
`CondVar::wait` is discarded (it is exactly the signal-pending flag, and the
result does not depend on it), `read` returns `Ok(0)`, and the first byte of
the lock-protected buffer holds ASCII '1' (49) at the moment `wait` is
called. -/
theorem read_returns_ok_zero_and_sets_first_byte (cv : CondVarState)
    (buf : Fin GLOBALMEM_SIZE → Nat) (t : Task) (reason : WakeReason)
    (rm : Bool) :
    (RustFile.read cv buf t reason rm).result = Except.ok 0 ∧
    (RustFile.read cv buf t reason rm).discardedSignal = t.signalPending ∧
    (RustFile.read cv buf t reason rm).bufAtWait firstByte = 49 :=
  ⟨rfl, rfl, by simp [RustFile.read]⟩

end CondvarModel
